import Mathlib

/-!
Shallow embedding of `zutil/daemon/daemon_windows.go` (package `daemon`):
the Windows service lifecycle controller.  Pure Go functions become Lean
functions; the interactions with the OS service manager (connect, open,
create, delete, query, control, event-log registration, registry reads,
process kills) are modelled by explicit oracle inputs recording the outcome
the OS would return, and by an explicit registration state for the
persistent effects.  Go `error` values are represented by their message
string, matching the source's use of `fmt.Errorf` and
`strings.Contains(err.Error(), ...)`.
-/

namespace Daemon

/-- A Go `error` value, represented by its message string
(`err.Error()` in the source). -/
structure GoErr where
  msg : String
deriving DecidableEq, Repr

/-- `golang.org/x/sys/windows/svc` service state constants:
`Stopped = 1`. -/
def svcStopped : Nat := 1

/-- `svc.StartPending = 2`. -/
def svcStartPending : Nat := 2

/-- `svc.StopPending = 3`. -/
def svcStopPending : Nat := 3

/-- `svc.Running = 4`. -/
def svcRunning : Nat := 4

/-- `svc.Cmd` control command constants: `svc.Stop = 1`. -/
def cmdStop : Nat := 1

/-- `svc.Pause = 2`. -/
def cmdPause : Nat := 2

/-- `svc.Continue = 3`. -/
def cmdContinue : Nat := 3

/-- `svc.Interrogate = 4`. -/
def cmdInterrogate : Nat := 4

/-- `svc.Shutdown = 5`. -/
def cmdShutdown : Nat := 5

/-- `svc.AcceptStop = 1`. -/
def acceptStop : Nat := 1

/-- `svc.AcceptShutdown = 4`. -/
def acceptShutdown : Nat := 4

/-- `const cmdsAccepted = svc.AcceptStop | svc.AcceptShutdown` in `Execute`. -/
def cmdsAccepted : Nat := acceptStop ||| acceptShutdown

/-- `svc.Status`: the state/accepted-commands pair sent on the `changes`
channel and returned by `Query`/`Control`; `ProcessId` is carried for the
fields `stopWait` reads. -/
structure SvcStatus where
  state : Nat
  accepts : Nat := 0
  processId : Nat := 0
deriving DecidableEq, Repr

/-- Go `strings.Contains s sub`: `sub` occurs as a contiguous substring
of `s`. -/
def goContains (s sub : String) : Bool :=
  (List.range (s.data.length + 1)).any fun i => sub.data.isPrefixOf (s.data.drop i)

/-! ## Status (`daemon_windows.go:272-296`)

`Status` makes three OS lookups (`connect`, `m.OpenService`, `s.Query`);
each outcome is an oracle input.  The function returns a `String` on every
path. -/

/-- `Status`: `connect` failure yields `"Unknown"`; an `OpenService` or
`Query` failure yields that error's message; the three known states map to
friendly labels; any other state is rendered with `strconv.Itoa`. -/
def statusString (connectErr : Option GoErr) (openErr : Option GoErr)
    (queryRes : Except GoErr SvcStatus) : String :=
  match connectErr with
  | some _ => "Unknown"
  | none =>
    match openErr with
    | some e => e.msg
    | none =>
      match queryRes with
      | .error e => e.msg
      | .ok q =>
        if q.state = svcRunning then "Running"
        else if q.state = svcStopPending then "StopPending"
        else if q.state = svcStopped then "Stop"
        else toString q.state

/-! ## getStopTimeout (`daemon_windows.go:345-361`)

The registry lookups are oracle inputs: whether
`registry.OpenKey(HKLM, SYSTEM\CurrentControlSet\Control, READ)` succeeds,
and the `Option String` outcome of `GetStringValue("WaitToKillServiceTimeout")`.
`strconv.Atoi` is embedded as `goAtoi`.  The result is in milliseconds
(the source returns `time.Millisecond * time.Duration(v)`). -/

/-- Go `strconv.Atoi` (= `ParseInt(s, 10, 0)` on a 64-bit platform):
an optional single sign followed by one or more decimal digits, with the
result required to fit in `int64`; anything else is an error (`none`). -/
def goAtoi (s : String) : Option Int :=
  let p : Bool × List Char :=
    match s.data with
    | '-' :: rest => (true, rest)
    | '+' :: rest => (false, rest)
    | cs => (false, cs)
  let digits := p.2
  if digits.isEmpty then none
  else if digits.all Char.isDigit then
    let n : Nat := digits.foldl (fun acc c => acc * 10 + (c.toNat - '0'.toNat)) 0
    let v : Int := if p.1 then -(n : Int) else (n : Int)
    if -(2 ^ 63) ≤ v ∧ v ≤ 2 ^ 63 - 1 then some v else none
  else none

/-- The fallback `defaultTimeout = time.Millisecond * 20000`, in ms. -/
def defaultStopTimeoutMs : Int := 20000

/-- `getStopTimeout`, in milliseconds: the parsed
`WaitToKillServiceTimeout` value, or 20000 whenever the key cannot be
opened, the value is absent, or it fails `strconv.Atoi`. -/
def getStopTimeout (openKeyOk : Bool) (stringValue : Option String) : Int :=
  if !openKeyOk then defaultStopTimeoutMs
  else
    match stringValue with
    | none => defaultStopTimeoutMs
    | some sv =>
      match goAtoi sv with
      | none => defaultStopTimeoutMs
      | some v => v

/-! ## Execute (`daemon_windows.go:85-114`)

The control loop.  The workload `Iface` callbacks are oracle inputs
(`startErr`, `stopErr`: the error each returns if invoked); the stream of
`svc.ChangeRequest` values received on `r` is a finite list, and exhausting
it models the loop still blocked on `<-r`.  The emitted `changes`, the
number of Start/Stop callback invocations, the value written via
`setError`, and the `(bool, uint32)` return are all recorded. -/

/-- `svc.ChangeRequest`: the command and the `CurrentStatus` echoed back
on `Interrogate`. -/
structure ChangeRequest where
  cmd : Nat
  currentStatus : SvcStatus
deriving DecidableEq, Repr

/-- Outcome of the `for { c := <-r; ... }` loop of `Execute`:
statuses sent on `changes`, Stop-callback count, the error passed to
`setError` (if any), and the return value — `none` while the loop is
still waiting on the channel. -/
structure ExecLoopOut where
  changes : List SvcStatus
  stopCalls : Nat
  box : Option GoErr
  ret : Option (Bool × Nat)
deriving DecidableEq, Repr

/-- The signal-dispatch loop of `Execute`: `Interrogate` re-sends
`c.CurrentStatus`; `Stop`/`Shutdown` sends `StopPending`, invokes the
workload's Stop callback and either records its error with return
`(true, 2)` or breaks the loop with return `(false, 0)`; every other
command is skipped (`continue loop`). -/
def execLoop (stopErr : Option GoErr) : List ChangeRequest → ExecLoopOut
  | [] => ⟨[], 0, none, none⟩
  | c :: rest =>
    if c.cmd = cmdInterrogate then
      let o := execLoop stopErr rest
      { o with changes := c.currentStatus :: o.changes }
    else if c.cmd = cmdStop ∨ c.cmd = cmdShutdown then
      match stopErr with
      | some e => ⟨[⟨svcStopPending, 0, 0⟩], 1, some e, some (true, 2)⟩
      | none => ⟨[⟨svcStopPending, 0, 0⟩], 1, none, some (false, 0)⟩
    else execLoop stopErr rest

/-- Result of `Execute`: the loop outcome plus the Start-callback count. -/
structure ExecOut where
  changes : List SvcStatus
  startCalls : Nat
  stopCalls : Nat
  box : Option GoErr
  ret : Option (Bool × Nat)
deriving DecidableEq, Repr

/-- `Execute`: send `StartPending`; invoke the workload's Start callback,
on error record it and return `(true, 1)`; otherwise send
`Running + cmdsAccepted` and enter the dispatch loop. -/
def execute (startErr stopErr : Option GoErr) (reqs : List ChangeRequest) : ExecOut :=
  match startErr with
  | some e => ⟨[⟨svcStartPending, 0, 0⟩], 1, 0, some e, some (true, 1)⟩
  | none =>
    let o := execLoop stopErr reqs
    ⟨⟨svcStartPending, 0, 0⟩ :: ⟨svcRunning, cmdsAccepted, 0⟩ :: o.changes,
      1, o.stopCalls, o.box, o.ret⟩

/-! ## Run (`daemon_windows.go:189-213`) and the Error Box (`:73-83`)

`windowsService` carries the mutex-guarded `stopStartErr` slot; `setError`
and `getError` are its accessors (the mutex serialises the single
read/write and is invisible to the sequential model).  Non-interactive
`Run` hands control to `svc.Run`, which drives `Execute`; `Execute`'s
`setError` calls are replayed onto the state.  `svc.Run`'s own
dispatch-level error is the oracle input `dispatchErr`.  Interactive `Run`
calls the Start callback directly, waits for a kill signal or context
cancellation, then returns the Stop callback's result. -/

/-- The `windowsService` receiver state relevant to the claims: the
service name and the Error Box slot `stopStartErr`. -/
structure WinSvc where
  name : String
  stopStartErr : Option GoErr
deriving DecidableEq, Repr

/-- `setError`. -/
def setError (w : WinSvc) (e : Option GoErr) : WinSvc :=
  { w with stopStartErr := e }

/-- `getError`. -/
def getError (w : WinSvc) : Option GoErr :=
  w.stopStartErr

/-- `Run`: reset the Error Box with `setError(nil)`; non-interactive,
run the dispatcher (which invokes `Execute`, whose `setError` calls write
the box), then return the box's error if present, else the dispatch
error, else `nil`; interactive, invoke Start (returning its error if it
fails), wait, and return the Stop callback's result. -/
def run (w : WinSvc) (interactive : Bool) (startErr stopErr : Option GoErr)
    (reqs : List ChangeRequest) (dispatchErr : Option GoErr) :
    Option GoErr × WinSvc :=
  let w1 := setError w none
  if !interactive then
    let out := execute startErr stopErr reqs
    let w2 := match out.box with
      | some e => setError w1 (some e)
      | none => w1
    match getError w2 with
    | some e => (some e, w2)
    | none =>
      match dispatchErr with
      | some e => (some e, w2)
      | none => (none, w2)
  else
    match startErr with
    | some e => (some e, w1)
    | none => (stopErr, w1)

/-! ## connect (`daemon_windows.go:336-344`), Install (`:116-159`),
Uninstall (`:161-187`)

The persistent OS side effects are modelled by `SysState`: the set of
registered service names (the manager's database is keyed by unique name,
so deletion removes every entry with that name) and the set of registered
event-log sources.  `OpenService(name)` succeeds exactly when `name` is
registered.  The fallible OS calls with no interesting state (connect,
`CreateService`, `InstallAsEventCreate`, `Delete`, `eventlog.Remove`) take
their outcome as oracle inputs.  Handle hygiene is recorded as counts of
service-handle opens and closes along the executed path. -/

/-- Modelled from the spec: `ErrNotAnAdministrator`, the sentinel
`PermissionDenied` error declared outside this file (its message text is
not in scope; only its identity matters). -/
def errNotAnAdministrator : GoErr := ⟨"not an administrator"⟩

/-- `connect`: `mgr.Connect`, rewriting an error whose message contains
`"Access is denied"` to `ErrNotAnAdministrator`. -/
def connect (connectErr : Option GoErr) : Option GoErr :=
  match connectErr with
  | some e => if goContains e.msg "Access is denied" then some errNotAnAdministrator else some e
  | none => none

/-- The persistent registration state of the OS service manager. -/
structure SysState where
  services : List String
  logSources : List String
deriving DecidableEq, Repr

/-- Modelled from the spec: the restart-policy flag of `Config`
(`isServiceRestart(w.Config)` is declared outside this file); only the
flag's value reaches this file's code.  `Name` is the unique identifier. -/
structure SvcConfig where
  name : String
  restart : Bool := false
deriving DecidableEq, Repr

/-- Oracle outcomes for the fallible OS calls Install makes. -/
structure InstallEnv where
  connectErr : Option GoErr := none
  createErr : Option GoErr := none
  eventErr : Option GoErr := none
  deleteErr : Option GoErr := none
deriving DecidableEq, Repr

/-- Service-handle accounting and action counts along one Install path. -/
structure InstallTrace where
  opens : Nat
  closes : Nat
  deleteCalls : Nat
  recoveryCalls : Nat
deriving DecidableEq, Repr

/-- `Install`: connect; if `OpenService(Name)` succeeds the service
already exists — close the handle and fail; otherwise `CreateService`
(registering the name); then `InstallAsEventCreate` — on failure,
best-effort `s.Delete()` (its error is discarded) and return the wrapped
`installAsEventCreate() failed:` error; on success optionally set the
restart recovery action (error discarded) and return `nil`.  The created
entry's attributes (exe path, display name, credentials) do not affect
any claim and are not tracked. -/
def install (env : InstallEnv) (st : SysState) (cfg : SvcConfig) :
    Option GoErr × SysState × InstallTrace :=
  match connect env.connectErr with
  | some e => (some e, st, ⟨0, 0, 0, 0⟩)
  | none =>
    if cfg.name ∈ st.services then
      (some ⟨"service " ++ cfg.name ++ " already exists"⟩, st, ⟨1, 1, 0, 0⟩)
    else
      match env.createErr with
      | some e => (some e, st, ⟨0, 0, 0, 0⟩)
      | none =>
        let st1 : SysState := { st with services := st.services ++ [cfg.name] }
        match env.eventErr with
        | some e =>
          let st2 : SysState :=
            match env.deleteErr with
            | none => { st1 with services := st1.services.filter (fun n => n ≠ cfg.name) }
            | some _ => st1
          (some ⟨"installAsEventCreate() failed: " ++ e.msg⟩, st2, ⟨1, 1, 1, 0⟩)
        | none =>
          let st2 : SysState := { st1 with logSources := st1.logSources ++ [cfg.name] }
          if cfg.restart then (none, st2, ⟨1, 1, 0, 1⟩)
          else (none, st2, ⟨1, 1, 0, 0⟩)

/-- Oracle outcomes for the fallible OS calls Uninstall makes.
`stopErr` is the discarded result of the best-effort `w.Stop()`. -/
structure UninstallEnv where
  connectErr : Option GoErr := none
  stopErr : Option GoErr := none
  deleteErr : Option GoErr := none
  removeLogErr : Option GoErr := none
deriving DecidableEq, Repr

/-- Action counts along one Uninstall path. -/
structure UninstallTrace where
  stopCalls : Nat
  deleteCalls : Nat
  removeLogCalls : Nat
deriving DecidableEq, Repr

/-- `Uninstall`: connect; `OpenService(Name)` failing means the service
is not installed — fail with that message and do nothing else; otherwise
best-effort `w.Stop()` (result discarded), `s.Delete()` (propagating its
error), then `eventlog.Remove(Name)`, wrapping its failure as
`removeEventLogSource() failed:`. -/
def uninstall (env : UninstallEnv) (st : SysState) (name : String) :
    Option GoErr × SysState × UninstallTrace :=
  match connect env.connectErr with
  | some e => (some e, st, ⟨0, 0, 0⟩)
  | none =>
    if name ∈ st.services then
      match env.deleteErr with
      | some e => (some e, st, ⟨1, 1, 0⟩)
      | none =>
        let st1 : SysState := { st with services := st.services.filter (fun n => n ≠ name) }
        match env.removeLogErr with
        | some e =>
          (some ⟨"removeEventLogSource() failed: " ++ e.msg⟩, st1, ⟨1, 1, 1⟩)
        | none =>
          (none, { st1 with logSources := st1.logSources.filter (fun n => n ≠ name) }, ⟨1, 1, 1⟩)
    else
      (some ⟨"service " ++ name ++ " is not installed"⟩, st, ⟨0, 0, 0⟩)

/-! ## forceKeep (`daemon_windows.go:298-302`) and stopWait (`:304-334`)

`forceKeep(pid)` shells out to `taskkill /F /pid <pid>`; the model records
each forced termination by appending the pid to a kill list.

`stopWait` first issues `s.Control(svc.Stop)`.  A rejection whose message
does not contain `"not valid"` is returned at once; a `"not valid"`
rejection falls back to `s.Query()` (propagating a query error) and
force-kills the queried pid.  It then runs the poll loop
`for status.State != svc.Stopped { select { tick / timeout } }`.

The select race is modelled by an event schedule: a `tick` event delivers
the 100 ms ticker (the loop re-queries, propagating a query error), and a
`deadline` event delivers the one-shot `time.After(getStopTimeout() +
2*tick)` timer (the loop force-kills the pid of the last observed status;
the `break` statement there is Go's `break` of the *select*, not of the
`for` loop, so the loop continues).  Successive `s.Query()` results are an
oracle stream indexed by query count.  Exhausting the schedule while the
loop condition still holds yields `waiting`, i.e. the loop is still
running. -/

/-- One delivery in `stopWait`'s select race: the 100 ms ticker tick, or
the one-shot deadline timer firing. -/
inductive StopEv
  | tick
  | deadline
deriving DecidableEq, Repr

/-- Result of running `stopWait`'s poll loop on a finite event schedule:
`returned err kills` when the function returned, or
`waiting cur qIdx kills` when the schedule is exhausted with the loop
still running (carrying the last observed status, the next query index
and the kills so far). -/
inductive StopLoopOut
  | returned (err : Option GoErr) (kills : List Nat)
  | waiting (cur : SvcStatus) (qIdx : Nat) (kills : List Nat)
deriving DecidableEq, Repr

/-- The `for status.State != svc.Stopped` poll loop of `stopWait`.
On `tick`, re-query (return a query error, else continue with the new
status); on `deadline`, force-kill the last observed status's pid and
continue the loop (the `break` only leaves the select). -/
def stopLoop (queries : Nat → Except GoErr SvcStatus) :
    List StopEv → Nat → SvcStatus → List Nat → StopLoopOut
  | [], i, st, ks =>
    if st.state = svcStopped then .returned none ks else .waiting st i ks
  | .tick :: rest, i, st, ks =>
    if st.state = svcStopped then .returned none ks
    else
      match queries i with
      | .error e => .returned (some e) ks
      | .ok st2 => stopLoop queries rest (i + 1) st2 ks
  | .deadline :: rest, i, st, ks =>
    if st.state = svcStopped then .returned none ks
    else stopLoop queries rest i st (ks ++ [st.processId])

/-- `stopWait`: issue `s.Control(svc.Stop)` (`controlRes` is its
outcome); on a rejection not containing `"not valid"` return it; on a
`"not valid"` rejection, query (propagating a query failure) and
force-kill the queried pid; then enter the poll loop. -/
def stopWait (controlRes : Except GoErr SvcStatus)
    (queries : Nat → Except GoErr SvcStatus) (evs : List StopEv) : StopLoopOut :=
  match controlRes with
  | .ok st => stopLoop queries evs 0 st []
  | .error e =>
    if goContains e.msg "not valid" then
      match queries 0 with
      | .error e2 => .returned (some e2) []
      | .ok st => stopLoop queries evs 1 st [st.processId]
    else .returned (some e) []

/-- The ticker period: `timeDuration = time.Millisecond * 100`, in ms. -/
def tickIntervalMs : Int := 100

/-- The deadline armed by `stopWait`:
`time.After(getStopTimeout() + timeDuration*2)`, in ms. -/
def stopDeadlineMs (openKeyOk : Bool) (stringValue : Option String) : Int :=
  getStopTimeout openKeyOk stringValue + tickIntervalMs * 2

/-- A workload stuck in `Running` (pid 3124): concrete status for the
never-stopping scenario. -/
def stuckStatus : SvcStatus := ⟨svcRunning, 0, 3124⟩

/-- Query oracle of the never-stopping workload: every `s.Query()`
observes `stuckStatus`. -/
def stuckQueries : Nat → Except GoErr SvcStatus := fun _ => .ok stuckStatus

/-- The Windows message for a stop control rejected in the current state
(`ERROR_INVALID_SERVICE_CONTROL`); it contains `"not valid"`. -/
def notValidMsg : String := "The requested control is not valid for this service."

/-- Concrete Install oracle for the failed-rollback scenario:
`InstallAsEventCreate` fails and the compensating `s.Delete()` fails
too. -/
def rollbackEnv : InstallEnv :=
  ⟨none, none, some ⟨"event log boom"⟩, some ⟨"delete rollback boom"⟩⟩

/-- Empty manager database. -/
def emptySys : SysState := ⟨[], []⟩

/-- Concrete config named `svcA`. -/
def svcACfg : SvcConfig := ⟨"svcA", false⟩

/-- `Interrogate` echoes: the `CurrentStatus` of each `Interrogate`
request, in order — what the dispatch loop re-emits for them. -/
def interrogateEchoes (reqs : List ChangeRequest) : List SvcStatus :=
  (reqs.filter fun c => c.cmd = cmdInterrogate).map fun c => c.currentStatus

/-! ## Theorems -/

/-- C6: Status never fails the caller — every lookup outcome yields a
string: `"Unknown"` on a connect failure, the error message on an
`OpenService` or `Query` failure, the friendly labels `"Running"`,
`"StopPending"`, `"Stop"` for those three states, and the raw numeric
state rendered as text for every other state. -/
theorem status_never_fails :
    (∀ e oe q, statusString (some e) oe q = "Unknown") ∧
    (∀ e q, statusString none (some e) q = e.msg) ∧
    (∀ e, statusString none none (.error e) = e.msg) ∧
    (∀ a p, statusString none none (.ok ⟨svcRunning, a, p⟩) = "Running") ∧
    (∀ a p, statusString none none (.ok ⟨svcStopPending, a, p⟩) = "StopPending") ∧
    (∀ a p, statusString none none (.ok ⟨svcStopped, a, p⟩) = "Stop") ∧
    (∀ s a p, s ≠ svcRunning → s ≠ svcStopPending → s ≠ svcStopped →
      statusString none none (.ok ⟨s, a, p⟩) = toString s) := by
  refine ⟨fun e oe q => rfl, fun e q => rfl, fun e => rfl, fun a p => rfl,
    fun a p => ?_, fun a p => ?_, fun s a p h1 h2 h3 => ?_⟩
  · simp [statusString, svcStopPending, svcRunning]
  · simp [statusString, svcStopped, svcRunning, svcStopPending]
  · simp [statusString, h1, h2, h3]

/-- Closed witness for `status_never_fails`: the unlabelled state 7 is
rendered as the text `"7"`. -/
theorem status_never_fails_witness :
    statusString none none (.ok ⟨7, 0, 0⟩) = "7" := by
  have h := status_never_fails.2.2.2.2.2.2 7 0 0 (by decide) (by decide) (by decide)
  simpa using h

/-- C9: getStopTimeout returns the configured value in milliseconds, and
falls back to 20000 ms whenever the registry key cannot be opened, the
value is absent, or the value does not parse as an integer. -/
theorem getStopTimeout_fallback :
    (∀ sv, getStopTimeout false sv = 20000) ∧
    getStopTimeout true none = 20000 ∧
    (∀ s, goAtoi s = none → getStopTimeout true (some s) = 20000) ∧
    (∀ s v, goAtoi s = some v → getStopTimeout true (some s) = v) := by
  refine ⟨fun sv => rfl, rfl, fun s h => ?_, fun s v h => ?_⟩
  · simp [getStopTimeout, h, defaultStopTimeoutMs]
  · simp [getStopTimeout, h]

/-- Closed witness for `getStopTimeout_fallback`: `"12x"` does not parse
and falls back to 20000; `"15000"` parses and is returned as-is. -/
theorem getStopTimeout_fallback_witness :
    getStopTimeout true (some "12x") = 20000 ∧
    getStopTimeout true (some "15000") = 15000 := by
  exact ⟨getStopTimeout_fallback.2.2.1 "12x" (by decide),
    getStopTimeout_fallback.2.2.2 "15000" 15000 (by decide)⟩

/-- C10: Run first resets the Error Box to nil, so its outcome (result
and final state) is independent of whatever error an earlier Run cycle
left in the box — only failures of the current invocation matter. -/
theorem run_resets_error_box (name : String) (e1 e2 : Option GoErr)
    (interactive : Bool) (startErr stopErr : Option GoErr)
    (reqs : List ChangeRequest) (dispatchErr : Option GoErr) :
    run ⟨name, e1⟩ interactive startErr stopErr reqs dispatchErr =
      run ⟨name, e2⟩ interactive startErr stopErr reqs dispatchErr := by
  simp only [run, setError]

/-- Dispatch-loop prefix lemma: a prefix containing no `Stop`/`Shutdown`
request only re-emits the `Interrogate` echoes and otherwise leaves the
loop's outcome to the remainder of the stream. -/
theorem execLoop_append_skip (se : Option GoErr) (pre rest : List ChangeRequest)
    (h : ∀ d ∈ pre, ¬(d.cmd = cmdStop ∨ d.cmd = cmdShutdown)) :
    execLoop se (pre ++ rest) =
      { execLoop se rest with
        changes := interrogateEchoes pre ++ (execLoop se rest).changes } := by
  induction pre with
  | nil => simp [interrogateEchoes]
  | cons c pre ih =>
    have hc := h c (by simp)
    have hrest : ∀ d ∈ pre, ¬(d.cmd = cmdStop ∨ d.cmd = cmdShutdown) :=
      fun d hd => h d (by simp [hd])
    by_cases hi : c.cmd = cmdInterrogate
    · simp [execLoop, hi, ih hrest, interrogateEchoes]
    · simp [execLoop, hi, hc, ih hrest, interrogateEchoes]

/-- C2: in Execute, a Stop or Shutdown signal received in Running yields
exactly one StopPending report, exactly one Stop-callback invocation, and
loop exit with the normal return `(false, 0)` when Stop succeeds; an
Interrogate signal only re-emits the current status (invoking no
callback); every other signal leaves the loop outcome untouched, and a
stream with no Stop/Shutdown keeps the loop waiting with the Stop
callback never invoked. -/
theorem execute_control_loop :
    (∀ pre c rest, (∀ d ∈ pre, ¬(d.cmd = cmdStop ∨ d.cmd = cmdShutdown)) →
      (c.cmd = cmdStop ∨ c.cmd = cmdShutdown) →
      (execute none none (pre ++ c :: rest)).stopCalls = 1 ∧
      (execute none none (pre ++ c :: rest)).ret = some (false, 0) ∧
      (execute none none (pre ++ c :: rest)).changes =
        ⟨svcStartPending, 0, 0⟩ :: ⟨svcRunning, cmdsAccepted, 0⟩ ::
          (interrogateEchoes pre ++ [⟨svcStopPending, 0, 0⟩]) ∧
      ((∀ d ∈ pre, d.currentStatus.state ≠ svcStopPending) →
        ((execute none none (pre ++ c :: rest)).changes.filter
            (fun s => s.state = svcStopPending)).length = 1)) ∧
    (∀ se c rest, c.cmd = cmdInterrogate →
      execLoop se (c :: rest) =
        { execLoop se rest with
          changes := c.currentStatus :: (execLoop se rest).changes }) ∧
    (∀ se c rest, ¬(c.cmd = cmdStop ∨ c.cmd = cmdShutdown) → c.cmd ≠ cmdInterrogate →
      execLoop se (c :: rest) = execLoop se rest) ∧
    (∀ se reqs, (∀ d ∈ reqs, ¬(d.cmd = cmdStop ∨ d.cmd = cmdShutdown)) →
      (execute none se reqs).stopCalls = 0 ∧ (execute none se reqs).ret = none ∧
      (execute none se reqs).startCalls = 1) := by
  have hstop : ∀ c rest, (c.cmd = cmdStop ∨ c.cmd = cmdShutdown) →
      execLoop none (c :: rest) = ⟨[⟨svcStopPending, 0, 0⟩], 1, none, some (false, 0)⟩ := by
    intro c rest hc
    have hi : ¬c.cmd = cmdInterrogate := by
      rcases hc with h | h <;> simp [h, cmdStop, cmdShutdown, cmdInterrogate]
    simp [execLoop, hi, hc]
  refine ⟨fun pre c rest h hc => ?_, fun se c rest hi => ?_, fun se c rest hc hi => ?_,
    fun se reqs h => ?_⟩
  · have hskip := execLoop_append_skip none pre (c :: rest) h
    rw [hstop c rest hc] at hskip
    refine ⟨?_, ?_, ?_, ?_⟩
    · simp [execute, hskip]
    · simp [execute, hskip]
    · simp [execute, hskip]
    · intro hpre
      have hech : ∀ s ∈ interrogateEchoes pre, ¬s.state = svcStopPending := by
        intro s hs
        rcases List.mem_map.mp hs with ⟨d, hd, rfl⟩
        exact hpre d (List.mem_of_mem_filter hd)
      simp only [execute, hskip]
      simp [List.filter_append, svcStartPending, svcRunning, svcStopPending]
      simpa [svcStopPending] using hech
  · simp [execLoop, hi]
  · simp [execLoop, hi, hc]
  · have hskip := execLoop_append_skip se reqs [] h
    rw [List.append_nil] at hskip
    refine ⟨?_, ?_, rfl⟩ <;> simp [execute, hskip, execLoop]

/-- Closed witness for `execute_control_loop`: an Interrogate and a
Continue followed by a Shutdown produce one Stop call, one StopPending
report and the normal exit `(false, 0)`. -/
theorem execute_control_loop_witness :
    (execute none none
        [⟨cmdInterrogate, ⟨svcRunning, cmdsAccepted, 0⟩⟩,
         ⟨cmdContinue, ⟨svcRunning, 0, 0⟩⟩,
         ⟨cmdShutdown, ⟨svcRunning, 0, 0⟩⟩]).stopCalls = 1 ∧
    (execute none none
        [⟨cmdInterrogate, ⟨svcRunning, cmdsAccepted, 0⟩⟩,
         ⟨cmdContinue, ⟨svcRunning, 0, 0⟩⟩,
         ⟨cmdShutdown, ⟨svcRunning, 0, 0⟩⟩]).ret = some (false, 0) ∧
    ((execute none none
        [⟨cmdInterrogate, ⟨svcRunning, cmdsAccepted, 0⟩⟩,
         ⟨cmdContinue, ⟨svcRunning, 0, 0⟩⟩,
         ⟨cmdShutdown, ⟨svcRunning, 0, 0⟩⟩]).changes.filter
      (fun s => s.state = svcStopPending)).length = 1 := by
  have h := execute_control_loop.1
    [⟨cmdInterrogate, ⟨svcRunning, cmdsAccepted, 0⟩⟩, ⟨cmdContinue, ⟨svcRunning, 0, 0⟩⟩]
    ⟨cmdShutdown, ⟨svcRunning, 0, 0⟩⟩ [] (by decide) (by decide)
  exact ⟨h.1, h.2.1, h.2.2.2 (by decide)⟩

/-- C3: a Start-callback failure is written to the Error Box and Execute
returns `(true, 1)` at once; a Stop-callback failure is written to the
box and Execute returns `(true, 2)` — both abnormal codes distinct from
the normal `(false, 0)`; and non-interactive Run returns the box's
captured error when present, else the dispatch-level error, and nil only
when both are absent. -/
theorem execute_error_capture :
    (∀ se reqs e, execute (some e) se reqs =
      ⟨[⟨svcStartPending, 0, 0⟩], 1, 0, some e, some (true, 1)⟩) ∧
    (∀ pre c rest e, (∀ d ∈ pre, ¬(d.cmd = cmdStop ∨ d.cmd = cmdShutdown)) →
      (c.cmd = cmdStop ∨ c.cmd = cmdShutdown) →
      (execute none (some e) (pre ++ c :: rest)).box = some e ∧
      (execute none (some e) (pre ++ c :: rest)).ret = some (true, 2)) ∧
    (∀ w startErr stopErr reqs dispatchErr,
      (run w false startErr stopErr reqs dispatchErr).1 =
        match (execute startErr stopErr reqs).box with
        | some e => some e
        | none => dispatchErr) := by
  refine ⟨fun se reqs e => rfl, fun pre c rest e h hc => ?_, fun w sE stE reqs dE => ?_⟩
  · have hi : ¬c.cmd = cmdInterrogate := by
      rcases hc with h2 | h2 <;> simp [h2, cmdStop, cmdShutdown, cmdInterrogate]
    have hskip := execLoop_append_skip (some e) pre (c :: rest) h
    have hstep : execLoop (some e) (c :: rest) =
        ⟨[⟨svcStopPending, 0, 0⟩], 1, some e, some (true, 2)⟩ := by
      simp [execLoop, hi, hc]
    rw [hstep] at hskip
    exact ⟨by simp [execute, hskip], by simp [execute, hskip]⟩
  · rcases hbox : (execute sE stE reqs).box with _ | e <;>
      rcases dE with _ | d <;>
      simp [run, setError, getError, hbox]

/-- Closed witness for `execute_error_capture`: a failing Stop callback
puts its error in the box with return `(true, 2)`, and Run then returns
that error in preference to a dispatch-level error. -/
theorem execute_error_capture_witness :
    (execute none (some ⟨"stop failed"⟩) [⟨cmdStop, ⟨svcRunning, 0, 0⟩⟩]).box =
      some ⟨"stop failed"⟩ ∧
    (execute none (some ⟨"stop failed"⟩) [⟨cmdStop, ⟨svcRunning, 0, 0⟩⟩]).ret =
      some (true, 2) ∧
    (run ⟨"svcA", none⟩ false none (some ⟨"stop failed"⟩)
        [⟨cmdStop, ⟨svcRunning, 0, 0⟩⟩] (some ⟨"dispatch failed"⟩)).1 =
      some ⟨"stop failed"⟩ := by
  have h := execute_error_capture.2.1 [] ⟨cmdStop, ⟨svcRunning, 0, 0⟩⟩ []
    ⟨"stop failed"⟩ (by decide) (by decide)
  have h3 := execute_error_capture.2.2 ⟨"svcA", none⟩ none (some ⟨"stop failed"⟩)
    [⟨cmdStop, ⟨svcRunning, 0, 0⟩⟩] (some ⟨"dispatch failed"⟩)
  refine ⟨by simpa using h.1, by simpa using h.2, ?_⟩
  rw [h3]
  have hb : (execute none (some ⟨"stop failed"⟩)
      [⟨cmdStop, ⟨svcRunning, 0, 0⟩⟩]).box = some ⟨"stop failed"⟩ := by simpa using h.1
  rw [hb]

/-- C7: Install on an already-registered name fails with the
already-exists error, closes the opened handle (opens = closes = 1) and
leaves the registration state untouched; consequently a second Install
with the same name after a successful first one fails with the
already-exists error. -/
theorem install_unique :
    (∀ env st cfg, connect env.connectErr = none → cfg.name ∈ st.services →
      install env st cfg =
        (some ⟨"service " ++ cfg.name ++ " already exists"⟩, st, ⟨1, 1, 0, 0⟩)) ∧
    (∀ env st cfg, connect env.connectErr = none → env.createErr = none →
      env.eventErr = none → cfg.name ∉ st.services →
      (install env st cfg).1 = none ∧
      cfg.name ∈ (install env st cfg).2.1.services ∧
      (∀ env2, connect env2.connectErr = none →
        (install env2 (install env st cfg).2.1 cfg).1 =
          some ⟨"service " ++ cfg.name ++ " already exists"⟩)) := by
  constructor
  · intro env st cfg hconn hmem
    simp [install, hconn, hmem]
  · intro env st cfg hconn hcreate hevent hmem
    have hres : (install env st cfg).2.1.services = st.services ++ [cfg.name] := by
      by_cases hr : cfg.restart <;> simp [install, hconn, hcreate, hevent, hmem, hr]
    refine ⟨?_, ?_, ?_⟩
    · by_cases hr : cfg.restart <;> simp [install, hconn, hcreate, hevent, hmem, hr]
    · rw [hres]; simp
    · intro env2 hconn2
      have hmem2 : cfg.name ∈ (install env st cfg).2.1.services := by rw [hres]; simp
      generalize (install env st cfg).2.1 = st2 at hmem2 ⊢
      simp [install, hconn2, hmem2]

/-- Closed witness for `install_unique`: installing `svcA` into an empty
database succeeds, and installing it again fails with the already-exists
error. -/
theorem install_unique_witness :
    (install ⟨none, none, none, none⟩ ⟨["svcA"], []⟩ svcACfg).1 =
      some ⟨"service svcA already exists"⟩ ∧
    (install ⟨none, none, none, none⟩ emptySys svcACfg).1 = none ∧
    (install ⟨none, none, none, none⟩
        (install ⟨none, none, none, none⟩ emptySys svcACfg).2.1 svcACfg).1 =
      some ⟨"service svcA already exists"⟩ := by
  have h1 := install_unique.1 ⟨none, none, none, none⟩ ⟨["svcA"], []⟩ svcACfg rfl (by decide)
  have h2 := install_unique.2 ⟨none, none, none, none⟩ emptySys svcACfg rfl rfl rfl (by decide)
  refine ⟨by rw [h1]; decide, h2.1, ?_⟩
  have h3 := h2.2.2 ⟨none, none, none, none⟩ rfl
  rw [h3]; decide

/-- C8: Uninstall on an unregistered name fails with the not-installed
error and performs no stop, delete or log-source removal, leaving the
state untouched; consequently a second Uninstall after a successful one
also fails with the not-installed error. -/
theorem uninstall_not_installed :
    (∀ env st name, connect env.connectErr = none → name ∉ st.services →
      uninstall env st name =
        (some ⟨"service " ++ name ++ " is not installed"⟩, st, ⟨0, 0, 0⟩)) ∧
    (∀ env st name, connect env.connectErr = none → env.deleteErr = none →
      env.removeLogErr = none → name ∈ st.services →
      (uninstall env st name).1 = none ∧
      name ∉ (uninstall env st name).2.1.services ∧
      (∀ env2, connect env2.connectErr = none →
        (uninstall env2 (uninstall env st name).2.1 name).1 =
          some ⟨"service " ++ name ++ " is not installed"⟩)) := by
  constructor
  · intro env st name hconn hmem
    simp [uninstall, hconn, hmem]
  · intro env st name hconn hdel hlog hmem
    have hres : (uninstall env st name).2.1.services =
        st.services.filter (fun n => n ≠ name) := by
      simp [uninstall, hconn, hdel, hlog, hmem]
    have hnot : name ∉ (uninstall env st name).2.1.services := by
      rw [hres]; simp
    refine ⟨by simp [uninstall, hconn, hdel, hlog, hmem], hnot, ?_⟩
    intro env2 hconn2
    generalize (uninstall env st name).2.1 = st2 at hnot ⊢
    simp [uninstall, hconn2, hnot]

/-- Closed witness for `uninstall_not_installed`: uninstalling `svcA`
from an empty database fails with the not-installed error, and after a
successful uninstall a second attempt fails the same way. -/
theorem uninstall_not_installed_witness :
    (uninstall ⟨none, none, none, none⟩ emptySys "svcA").1 =
      some ⟨"service svcA is not installed"⟩ ∧
    (uninstall ⟨none, none, none, none⟩ ⟨["svcA"], ["svcA"]⟩ "svcA").1 = none ∧
    (uninstall ⟨none, none, none, none⟩
        (uninstall ⟨none, none, none, none⟩ ⟨["svcA"], ["svcA"]⟩ "svcA").2.1 "svcA").1 =
      some ⟨"service svcA is not installed"⟩ := by
  have h1 := uninstall_not_installed.1 ⟨none, none, none, none⟩ emptySys "svcA" rfl (by decide)
  have h2 := uninstall_not_installed.2 ⟨none, none, none, none⟩ ⟨["svcA"], ["svcA"]⟩ "svcA"
    rfl rfl rfl (by decide)
  have h3 := h2.2.2 ⟨none, none, none, none⟩ rfl
  exact ⟨by rw [h1]; decide, h2.1, by rw [h3]; decide⟩

/-- C4 counterexample: with the event-log registration failing and the
compensating delete also failing, Install returns exactly the wrapped
log-registration error — a message that does not mention the rollback
failure at all — and the just-created entry remains registered, so the
system is not left as if Install was never attempted. -/
theorem install_rollback_counterexample :
    (install rollbackEnv emptySys svcACfg).1 =
      some ⟨"installAsEventCreate() failed: event log boom"⟩ ∧
    goContains "installAsEventCreate() failed: event log boom" "delete rollback boom" = false ∧
    "svcA" ∈ (install rollbackEnv emptySys svcACfg).2.1.services := by
  refine ⟨rfl, by decide, by decide⟩

/-- C4 amended: if log-source registration fails after the entry was
created, Install attempts to delete the just-created entry exactly once,
discarding any deletion failure, and in every case returns the wrapped
error identifying the log-registration failure; when the deletion
succeeds the system is left as if Install was never attempted, while a
deletion failure leaves the entry registered and is not surfaced. -/
theorem install_rollback_amended (env : InstallEnv) (st : SysState) (cfg : SvcConfig)
    (e : GoErr) (hconn : connect env.connectErr = none) (hmem : cfg.name ∉ st.services)
    (hcreate : env.createErr = none) (hevent : env.eventErr = some e) :
    (install env st cfg).1 = some ⟨"installAsEventCreate() failed: " ++ e.msg⟩ ∧
    (install env st cfg).2.2.deleteCalls = 1 ∧
    (env.deleteErr = none → (install env st cfg).2.1 = st) ∧
    (env.deleteErr ≠ none →
      (install env st cfg).2.1.services = st.services ++ [cfg.name]) := by
  have hall : ∀ n ∈ st.services, n ≠ cfg.name := fun n hn heq => hmem (heq ▸ hn)
  rcases hdel : env.deleteErr with _ | d
  · refine ⟨?_, ?_, fun _ => ?_, fun hne => absurd rfl hne⟩
    · simp [install, hconn, hcreate, hevent, hmem, hdel]
    · simp [install, hconn, hcreate, hevent, hmem, hdel]
    · have hfil : st.services.filter (fun n => !decide (n = cfg.name)) = st.services :=
        List.filter_eq_self.mpr (fun a ha => by simpa using hall a ha)
      simp [install, hconn, hcreate, hevent, hmem, hdel, hfil]
  · refine ⟨?_, ?_, fun habs => by simp [hdel] at habs, fun _ => ?_⟩ <;>
      simp [install, hconn, hcreate, hevent, hmem, hdel]

/-- Closed witness for `install_rollback_amended`: with a failing
event-log registration and a succeeding delete, Install returns the
wrapped log-registration error and restores the empty database. -/
theorem install_rollback_amended_witness :
    (install ⟨none, none, some ⟨"event log boom"⟩, none⟩ emptySys svcACfg).1 =
      some ⟨"installAsEventCreate() failed: event log boom"⟩ ∧
    (install ⟨none, none, some ⟨"event log boom"⟩, none⟩ emptySys svcACfg).2.1 = emptySys := by
  have h := install_rollback_amended ⟨none, none, some ⟨"event log boom"⟩, none⟩
    emptySys svcACfg ⟨"event log boom"⟩ rfl (by decide) rfl rfl
  exact ⟨h.1, h.2.2.1 rfl⟩

/-- A status already `Stopped` makes the poll loop return nil at once,
whatever events are pending. -/
theorem stopLoop_stopped (q : Nat → Except GoErr SvcStatus) (evs : List StopEv)
    (i : Nat) (st : SvcStatus) (ks : List Nat) (h : st.state = svcStopped) :
    stopLoop q evs i st ks = .returned none ks := by
  cases evs with
  | nil => simp [stopLoop, h]
  | cons ev rest => cases ev <;> simp [stopLoop, h]

/-- Splitting the event schedule: running the poll loop over `e1 ++ e2`
is running it over `e1` and, if that merely exhausts the schedule,
continuing over `e2` from where it left off. -/
theorem stopLoop_append (q : Nat → Except GoErr SvcStatus) (e1 e2 : List StopEv) :
    ∀ i st ks, stopLoop q (e1 ++ e2) i st ks =
      match stopLoop q e1 i st ks with
      | .returned err ks2 => .returned err ks2
      | .waiting st2 i2 ks2 => stopLoop q e2 i2 st2 ks2 := by
  induction e1 with
  | nil =>
    intro i st ks
    by_cases h : st.state = svcStopped
    · simp [stopLoop, h, stopLoop_stopped q e2 i st ks h]
    · simp [stopLoop, h]
  | cons ev rest ih =>
    intro i st ks
    cases ev
    · by_cases h : st.state = svcStopped
      · simp [stopLoop, h]
      · rcases hq : q i with e | st2
        · simp [stopLoop, h, hq]
        · simp [stopLoop, h, hq, ih]
    · by_cases h : st.state = svcStopped
      · simp [stopLoop, h]
      · simp [stopLoop, h, ih]

/-- Every error the poll loop returns was produced by some query. -/
theorem stopLoop_error_from_queries (q : Nat → Except GoErr SvcStatus) (evs : List StopEv) :
    ∀ i st ks err ks2, stopLoop q evs i st ks = .returned (some err) ks2 →
      ∃ j, q j = .error err := by
  induction evs with
  | nil =>
    intro i st ks err ks2 h
    by_cases hs : st.state = svcStopped <;> simp [stopLoop, hs] at h
  | cons ev rest ih =>
    intro i st ks err ks2 h
    cases ev
    · by_cases hs : st.state = svcStopped
      · simp [stopLoop, hs] at h
      · rcases hq : q i with e | st2
        · rw [stopLoop] at h
          simp [hs, hq] at h
          exact ⟨i, by rw [hq, h.1]⟩
        · rw [stopLoop] at h
          simp [hs, hq] at h
          exact ih _ _ _ _ _ h
    · by_cases hs : st.state = svcStopped
      · simp [stopLoop, hs] at h
      · rw [stopLoop] at h
        simp [hs] at h
        exact ih _ _ _ _ _ h

/-- Under the never-stopping query oracle, any number of ticks leaves the
poll loop waiting, with the kill list untouched. -/
theorem stopLoop_stuck_ticks (n : Nat) :
    ∀ i ks, stopLoop stuckQueries (List.replicate n .tick) i stuckStatus ks =
      .waiting stuckStatus (i + n) ks := by
  induction n with
  | zero => intro i ks; simp [stopLoop, stuckStatus, svcRunning, svcStopped]
  | succ n ih =>
    intro i ks
    have h1 : stopLoop stuckQueries (List.replicate (n + 1) .tick) i stuckStatus ks =
        stopLoop stuckQueries (List.replicate n .tick) (i + 1) stuckStatus ks := by
      rw [List.replicate_succ]
      simp [stopLoop, stuckStatus, stuckQueries, svcRunning, svcStopped]
    rw [h1, ih (i + 1) ks]
    congr 1
    omega

/-- C1: refutation of the deadline behaviour on the code as written — for
the workload that never reaches Stopped, once the deadline fires the
protocol force-terminates the last-queried pid exactly once (`kills =
[3124]`), but it does not return: after the deadline event and `k`
further ticks, for every `k`, `stopWait` is still in its poll loop
(`waiting`), because the `break` in the timeout branch only leaves the
`select`, not the `for` loop. -/
theorem stopWait_never_stopped_loops (n k : Nat) :
    stopWait (.ok stuckStatus) stuckQueries
        (List.replicate n .tick ++ .deadline :: List.replicate k .tick) =
      .waiting stuckStatus (n + k) [stuckStatus.processId] := by
  have hd : stopLoop stuckQueries (.deadline :: List.replicate k .tick)
      (0 + n) stuckStatus [] =
      stopLoop stuckQueries (List.replicate k .tick) (0 + n) stuckStatus
        [stuckStatus.processId] := by
    simp [stopLoop, stuckStatus, svcRunning, svcStopped]
  simp only [stopWait, stopLoop_append, stopLoop_stuck_ticks n 0 [], hd,
    stopLoop_stuck_ticks k (0 + n) [stuckStatus.processId]]
  congr 1
  omega

/-- C5: stop-command rejection handling — a rejection whose message does
not contain `"not valid"` is returned at once as a fatal error with no
forced kill; a `"not valid"` rejection is recovered by querying current
status and force-terminating the queried pid before entering the poll
loop; and after a `"not valid"` rejection any error `stopWait` does
return originates from a query, never from the rejection itself. -/
theorem stopWait_rejection_fallback :
    (∀ e q evs, goContains e.msg "not valid" = false →
      stopWait (.error e) q evs = .returned (some e) []) ∧
    (∀ e q evs st, goContains e.msg "not valid" = true → q 0 = .ok st →
      stopWait (.error e) q evs = stopLoop q evs 1 st [st.processId]) ∧
    (∀ e q evs err ks, goContains e.msg "not valid" = true →
      stopWait (.error e) q evs = .returned (some err) ks →
      ∃ j, q j = .error err) := by
  refine ⟨fun e q evs h => ?_, fun e q evs st h hq => ?_,
    fun e q evs err ks h hret => ?_⟩
  · simp [stopWait, h]
  · simp [stopWait, h, hq]
  · simp only [stopWait, h, if_true] at hret
    rcases hq : q 0 with e2 | st
    · rw [hq] at hret
      simp at hret
      exact ⟨0, by rw [hq, hret.1]⟩
    · rw [hq] at hret
      exact stopLoop_error_from_queries q evs _ _ _ _ _ hret

/-- Closed witness for `stopWait_rejection_fallback`: the Windows
invalid-control message triggers the query-and-kill fallback (pid 3124
killed, loop entered), while an access-denied rejection is returned
immediately with no kill. -/
theorem stopWait_rejection_witness :
    goContains notValidMsg "not valid" = true ∧
    stopWait (.error ⟨notValidMsg⟩) stuckQueries [] =
      .waiting stuckStatus 1 [stuckStatus.processId] ∧
    stopWait (.error ⟨"Access is denied."⟩) stuckQueries [] =
      .returned (some ⟨"Access is denied."⟩) [] := by
  refine ⟨by decide, ?_, ?_⟩
  · rw [stopWait_rejection_fallback.2.1 ⟨notValidMsg⟩ stuckQueries [] stuckStatus
      (by decide) rfl]
    simp [stopLoop, stuckStatus, svcRunning, svcStopped]
  · exact stopWait_rejection_fallback.1 ⟨"Access is denied."⟩ stuckQueries [] (by decide)

end Daemon
